import Mathlib

/-!
Verification of the EduSmart timed-assessment session engine with live
integrity monitoring, as implemented in src/models.py and
src/routes/student.py.  Datetimes are modelled as integer seconds,
wall-clock values from the proctoring path (time.time) as rationals,
and detector confidences / landmark coordinates as rationals.
-/

namespace EduSmart

/-- Question row (src/models.py, class Question): four option strings,
the stored correct option letter and the mark weight. -/
structure Question where
  qid : Nat
  text : String
  option_a : String
  option_b : String
  option_c : String
  option_d : String
  correct_option : String
  marks : Int
  deriving Repr, DecidableEq, Inhabited

/-- Test row (src/models.py, class Test): activity window and duration.
Both window bounds are nullable columns, and src/routes/student.py
truthiness-checks them before use. -/
structure Test where
  start_time : Option Int
  end_time : Option Int
  duration_minutes : Int
  questions : List Question
  deriving Repr, DecidableEq, Inhabited

/-- StudentAnswer row (src/models.py, class StudentAnswer): one record per
(attempt, question); selected_option is a nullable one-letter string. -/
structure StudentAnswer where
  question_id : Nat
  selected_option : Option String
  is_correct : Bool
  time_spent : Int
  marked_for_review : Bool
  deriving Repr, DecidableEq, Inhabited

/-- TestAttempt row (src/models.py, class TestAttempt), restricted to the
fields the session engine reads or writes: attempted_at, the per-attempt
end_time (the deadline, nullable until computed), the scoring counters and
the violation flag. -/
structure TestAttempt where
  attempted_at : Int
  end_time : Option Int
  score : Int
  total_questions : Nat
  correct_answers : Nat
  wrong_answers : Nat
  auto_submitted_due_to_violation : Bool
  deriving Repr, DecidableEq, Inhabited

/-- Column defaults of a freshly created TestAttempt
(src/routes/student.py line 214 together with the model defaults). -/
def newAttempt (now : Int) : TestAttempt :=
  { attempted_at := now
    end_time := none
    score := 0
    total_questions := 0
    correct_answers := 0
    wrong_answers := 0
    auto_submitted_due_to_violation := false }

/-- Column defaults of a freshly created StudentAnswer with only the keys
set (src/routes/student.py line 330 together with the model defaults). -/
def defaultAnswer (qid : Nat) : StudentAnswer :=
  { question_id := qid
    selected_option := none
    is_correct := false
    time_spent := 0
    marked_for_review := false }

/-- Python truthiness of an optional form string: None and the empty
string are falsy, every other string is truthy. -/
def optTruthy : Option String → Bool
  | none => false
  | some s => !(s == "")

/-- Deadline computation, src/routes/student.py lines 219-225 ("Dynamic
end_time"): if the end_time of the attempt is unset it becomes
min(test.end_time, attempted_at + duration) when test.end_time is set,
else attempted_at + duration; an already-set end_time is left alone.
Durations are minutes, datetimes are seconds. -/
def computeDeadline (attempt : TestAttempt) (test : Test) : TestAttempt :=
  match attempt.end_time with
  | some _ => attempt
  | none =>
    match test.end_time with
    | some te =>
        { attempt with
          end_time := some (min te (attempt.attempted_at + test.duration_minutes * 60)) }
    | none =>
        { attempt with
          end_time := some (attempt.attempted_at + test.duration_minutes * 60) }

/-- Submission scoring, src/routes/student.py lines 278-281 (manual
submit), identical in the timeout branch (lines 229-232) and the ajax
submit branch (lines 347-350): correct and wrong are full scans of the
StudentAnswer records by is_correct, total_questions is the number of
questions of the test and score is the correct count. -/
def finalize (attempt : TestAttempt) (answers : List StudentAnswer) (test : Test) :
    TestAttempt :=
  { attempt with
    correct_answers := (answers.filter (fun a => a.is_correct)).length
    wrong_answers := (answers.filter (fun a => !a.is_correct)).length
    total_questions := test.questions.length
    score := ((answers.filter (fun a => a.is_correct)).length : Int) }

/-- Suspicious-activity classification, src/routes/student.py lines
642-651: an if/elif chain, first firing condition wins. -/
def classifySuspicious (face_detected multiple_faces mobile_detected eye_gaze_away : Bool) :
    Option String :=
  if !face_detected then some "No face detected"
  else if multiple_faces then some "Multiple people detected"
  else if mobile_detected then some "Mobile phone detected"
  else if eye_gaze_away then some "Eye gaze away"
  else none

/-- Mean eye points delivered by the external facial-landmark extractor:
the numpy means over landmark indices 33,133,159,145 (left eye) and
263,362,386,374 (right eye) taken in src/routes/student.py lines 588-589;
the external extractor produces the landmark coordinates, so the two mean
points are the structured input of the gaze check. -/
structure EyePoints where
  left_eye_x : ℚ
  left_eye_y : ℚ
  right_eye_x : ℚ
  right_eye_y : ℚ
  deriving Repr, DecidableEq, Inhabited

/-- Gaze test, src/routes/student.py lines 587-592 (check_eye_gaze): the
eye center is the midpoint of the two mean eye points and gaze is away
exactly when it leaves the open normalized box (0.35, 0.65) x (0.35, 0.65). -/
def check_eye_gaze (lm : EyePoints) : Bool :=
  let eye_center_x := (lm.left_eye_x + lm.right_eye_x) / 2
  let eye_center_y := (lm.left_eye_y + lm.right_eye_y) / 2
  !(decide ((35 / 100 : ℚ) < eye_center_x ∧ eye_center_x < (65 / 100 : ℚ) ∧
            (35 / 100 : ℚ) < eye_center_y ∧ eye_center_y < (65 / 100 : ℚ)))

/-- Outcome of the mediapipe face-mesh stage, src/routes/student.py lines
627-640: the call may raise (the except branch swallows the error), may
find no landmarks, or yields landmarks from which the mean eye points are
taken. -/
inductive GazeOutcome where
  | failed : GazeOutcome
  | noLandmarks : GazeOutcome
  | landmarks (pts : EyePoints) : GazeOutcome
  deriving Repr, DecidableEq, Inhabited

/-- Structured output of the external detectors for one decoded frame:
the YOLO object labels with their confidences (src/routes/student.py
lines 614-619) and the face-mesh outcome.  The external model calls are
collaborators per the spec; their outputs are inputs of the analysis
cycle. -/
structure YoloOut where
  detected_objects : List String
  confidences : List ℚ
  gaze : GazeOutcome
  deriving Repr, DecidableEq, Inhabited

/-- ProctoringLog row as written by analyze_frame, src/routes/student.py
lines 654-663 (the columns the route leaves at their model defaults are
omitted). -/
structure ProctoringLog where
  timestamp : Int
  face_detected : Bool
  multiple_faces : Bool
  mobile_detected : Bool
  eye_gaze_away : Bool
  suspicious_activity : Option String
  deriving Repr, DecidableEq, Inhabited

/-- Proctoring state for one (student, attempt): the append-only log table
slice and the two session counters warnings_{user}_{attempt} and
last_warn_{user}_{attempt}, both defaulting to 0
(src/routes/student.py lines 671-675). -/
structure ProctorState where
  logs : List ProctoringLog
  warnings : Nat
  last_warn : ℚ
  deriving Repr, DecidableEq, Inhabited

/-- JSON payload returned by analyze_frame on success,
src/routes/student.py lines 689-694 (the msg field is a pure rendering of
suspicious through the scenario message table and is omitted). -/
structure AnalyzeResponse where
  suspicious : Option String
  warnings : Nat
  auto_submit : Bool
  deriving Repr, DecidableEq, Inhabited

/-- Detection flags derived from the detector outputs,
src/routes/student.py lines 623-640: face when a person label is present,
multiple when more than one person label, mobile when a cell-phone or
mobile label has confidence above 0.3; the face-mesh stage then overrides
face to false when no landmarks resolve (an exception leaves the flags as
they are, with gaze not away).  Returns
(face_detected, multiple_faces, mobile_detected, eye_gaze_away). -/
def frameFlags (y : YoloOut) : Bool × Bool × Bool × Bool :=
  let face_detected := y.detected_objects.contains "person"
  let multiple_faces :=
    decide (1 < (y.detected_objects.filter (fun o => o == "person")).length)
  let mobile_detected := (y.detected_objects.zip y.confidences).any
    (fun oc => (oc.1 == "cell phone" || oc.1 == "mobile") && decide ((3 / 10 : ℚ) < oc.2))
  match y.gaze with
  | GazeOutcome.failed => (face_detected, multiple_faces, mobile_detected, false)
  | GazeOutcome.noLandmarks => (false, multiple_faces, mobile_detected, false)
  | GazeOutcome.landmarks pts =>
      (face_detected, multiple_faces, mobile_detected, check_eye_gaze pts)

/-- Suspicious label of one decoded frame: the detection flags fed into
the precedence chain of src/routes/student.py lines 642-651. -/
def suspiciousOf (y : YoloOut) : Option String :=
  let fl := frameFlags y
  classifySuspicious fl.1 fl.2.1 fl.2.2.1 fl.2.2.2

/-- Frame-analysis cycle, src/routes/student.py lines 595-694
(analyze_frame).  A frame that fails to decode aborts before any mutation
(lines 606-612).  A decoded frame has its detector outputs classified,
one ProctoringLog row is appended (lines 654-665), then the session
warning counters are updated: a warning is accepted when the frame is
suspicious and strictly more than 2 seconds of wall clock passed since
the last accepted warning (line 677); a counter at or past 5 yields
auto_submit and resets both counters to zero (lines 682-685).  The JSON
response reports the post-reset counter. -/
def analyze_frame (st : ProctorState) (decoded : Option YoloOut)
    (now_dt : Int) (now_ts : ℚ) : ProctorState × Except String AnalyzeResponse :=
  match decoded with
  | none => (st, Except.error "Frame decode failed")
  | some y =>
    let fl := frameFlags y
    let suspicious := suspiciousOf y
    let log : ProctoringLog :=
      { timestamp := now_dt
        face_detected := fl.1
        multiple_faces := fl.2.1
        mobile_detected := fl.2.2.1
        eye_gaze_away := fl.2.2.2
        suspicious_activity := suspicious }
    let logs := st.logs ++ [log]
    let accepted := suspicious.isSome && decide (now_ts - st.last_warn > 2)
    let warnings1 := if accepted then st.warnings + 1 else st.warnings
    let last_warn1 := if accepted then now_ts else st.last_warn
    let auto_submit := decide (5 ≤ warnings1)
    let warnings2 := if auto_submit then 0 else warnings1
    let last_warn2 := if auto_submit then 0 else last_warn1
    ({ logs := logs, warnings := warnings2, last_warn := last_warn2 },
     Except.ok { suspicious := suspicious, warnings := warnings2, auto_submit := auto_submit })

/-- Answer persistence of the page-based path, src/routes/student.py
lines 252-270 (the POST handler of start_test): when no record exists one
is created, storing the selection only when truthy and computing
is_correct only in that case; on an existing record a truthy selection
overwrites selected_option and recomputes is_correct by exact match
against the correct option of the question, and marked_for_review is always
overwritten with the submitted value. -/
def recordAnswer (answers : List StudentAnswer) (q : Question)
    (selected_option : Option String) (mark_review : Bool) : List StudentAnswer :=
  match answers.find? (fun a => a.question_id == q.qid) with
  | none =>
      answers ++
        [{ question_id := q.qid
           selected_option := if optTruthy selected_option then selected_option else none
           is_correct := if optTruthy selected_option then
               selected_option == some q.correct_option else false
           time_spent := 0
           marked_for_review := mark_review }]
  | some _ =>
      answers.map (fun a =>
        if a.question_id == q.qid then
          let a1 := if optTruthy selected_option then
              { a with selected_option := selected_option,
                       is_correct := (selected_option == some q.correct_option) }
            else a
          { a1 with marked_for_review := mark_review }
        else a)

/-- Replacement of the record for one question, as the ORM session does
it: an existing row is updated in place, otherwise the new row is
appended. -/
def upsertAnswer (answers : List StudentAnswer) (qid : Nat) (row : StudentAnswer) :
    List StudentAnswer :=
  if answers.any (fun a => a.question_id == qid) then
    answers.map (fun a => if a.question_id == qid then row else a)
  else answers ++ [row]

/-- Per-record effect of the incremental save, src/routes/student.py
lines 333-342: the mark action sets the review flag, the clear action
erases selection, correctness and review flag, and any other action
stores a truthy selection and recomputes is_correct by exact match (a
falsy selection changes nothing). -/
def applyAjaxAction (a : StudentAnswer) (q : Question) (action : String)
    (selected_option : Option String) : StudentAnswer :=
  if action == "mark" then { a with marked_for_review := true }
  else if action == "clear" then
    { a with selected_option := none, is_correct := false, marked_for_review := false }
  else if optTruthy selected_option then
    { a with selected_option := selected_option,
             is_correct := (selected_option == some q.correct_option) }
  else a

/-- Outcome of the incremental save endpoint: the 404 when no attempt
exists, the 400 on a bad index, the submit response, or the state
response carrying the clamped navigation index. -/
inductive AjaxOutcome where
  | attemptNotFound : AjaxOutcome
  | invalidIndex : AjaxOutcome
  | submitResponse (attempt : TestAttempt) (answers : List StudentAnswer) : AjaxOutcome
  | stateResponse (attempt : TestAttempt) (answers : List StudentAnswer)
      (new_index : Int) : AjaxOutcome
  deriving Repr, DecidableEq, Inhabited

/-- Incremental answer-save endpoint, src/routes/student.py lines 311-375
(ajax_save_answer): 404 when no attempt exists, 400 when the question
index is out of range; otherwise the record of the indexed question is
fetched or created and mutated per the action, and on the submit action
the attempt is finalized over the updated records; any other action
yields the state response with the navigation index clamped at the
bounds.  No check of the submission status of the attempt or of the deadline
is performed anywhere on this path. -/
def ajax_save_answer (test : Test) (attempt0 : Option TestAttempt)
    (answers : List StudentAnswer) (question_index : Int) (action : String)
    (selected_option : Option String) : AjaxOutcome :=
  match attempt0 with
  | none => AjaxOutcome.attemptNotFound
  | some attempt =>
    if question_index < 0 ∨ question_index ≥ (test.questions.length : Int) then
      AjaxOutcome.invalidIndex
    else
      let q := test.questions.getD question_index.toNat default
      let row := (answers.find? (fun a => a.question_id == q.qid)).getD
          (defaultAnswer q.qid)
      let answers1 := upsertAnswer answers q.qid (applyAjaxAction row q action selected_option)
      if action == "submit" then
        AjaxOutcome.submitResponse (finalize attempt answers1 test) answers1
      else
        let new_index :=
          if action == "next" ∧ question_index + 1 < (test.questions.length : Int) then
            question_index + 1
          else if action == "prev" ∧ question_index > 0 then question_index - 1
          else question_index
        AjaxOutcome.stateResponse attempt answers1 new_index

/-- Records written by an ajax outcome, when it wrote any: the error
outcomes write nothing. -/
def ajaxAnswers : AjaxOutcome → Option (List StudentAnswer)
  | AjaxOutcome.attemptNotFound => none
  | AjaxOutcome.invalidIndex => none
  | AjaxOutcome.submitResponse _ ans => some ans
  | AjaxOutcome.stateResponse _ ans _ => some ans

/-- Truthy test-window gate "test has not started yet",
src/routes/student.py line 204. -/
def windowNotStarted (test : Test) (now : Int) : Bool :=
  match test.start_time with
  | some s => decide (now < s)
  | none => false

/-- Truthy test-window gate "test is already over",
src/routes/student.py line 207. -/
def windowOver (test : Test) (now : Int) : Bool :=
  match test.end_time with
  | some e => decide (e < now)
  | none => false

/-- Outcome of the question-view path of start_test: the policy redirects
and the served view. -/
inductive StartTestOutcome where
  | notEnrolled : StartTestOutcome
  | notStartedYet : StartTestOutcome
  | testOver : StartTestOutcome
  | timeUp (attempt : TestAttempt) : StartTestOutcome
  | noQuestions (attempt : TestAttempt) : StartTestOutcome
  | redirectIndexZero (attempt : TestAttempt) : StartTestOutcome
  | questionView (attempt : TestAttempt) (question : Question)
      (answer : Option StudentAnswer) (remaining_seconds : Int) : StartTestOutcome
  deriving Repr, DecidableEq, Inhabited

/-- Question-view path of start_test, src/routes/student.py lines 192-305
(the GET flow; the POST answer handling is recordAnswer above): the
enrollment gate, the two activity-window gates, get-or-create of the
attempt, deadline computation, the lazy timeout submission when no
seconds remain, the empty-test redirect, and the index-bounds check,
which redirects to question 0; for an in-range index the indexed question
and its record (if any) are served. -/
def start_test (enrolled : Bool) (test : Test) (now : Int)
    (attempt0 : Option TestAttempt) (answers : List StudentAnswer)
    (question_index : Int) : StartTestOutcome :=
  if !enrolled then StartTestOutcome.notEnrolled
  else if windowNotStarted test now then StartTestOutcome.notStartedYet
  else if windowOver test now then StartTestOutcome.testOver
  else
    let attempt := computeDeadline (attempt0.getD (newAttempt now)) test
    let remaining_seconds := (attempt.end_time.getD now) - now
    if remaining_seconds ≤ 0 then
      StartTestOutcome.timeUp (finalize attempt answers test)
    else if test.questions.length = 0 then
      StartTestOutcome.noQuestions attempt
    else if question_index < 0 ∨ question_index ≥ (test.questions.length : Int) then
      StartTestOutcome.redirectIndexZero attempt
    else
      let q := test.questions.getD question_index.toNat default
      StartTestOutcome.questionView attempt q
        (answers.find? (fun a => a.question_id == q.qid)) remaining_seconds

/-- Modelled from the spec: the forced-submit transition.  No code under
src/ writes auto_submitted_due_to_violation; the handler that reacts to
the analyze_frame response auto_submit = true lives outside src/ (client
template layer).  Per the spec, reaching the warning threshold forces
submission: the attempt is finalized with cause Violation, which sets
auto_submitted_due_to_violation. -/
def forcedSubmitViolation (attempt : TestAttempt) (answers : List StudentAnswer)
    (test : Test) : TestAttempt :=
  { finalize attempt answers test with auto_submitted_due_to_violation := true }

/-- Concrete question with correct option A, used by concrete scenarios. -/
def qA : Question :=
  { qid := 1, text := "q1", option_a := "1", option_b := "2", option_c := "3",
    option_d := "4", correct_option := "A", marks := 1 }

/-- Concrete question with correct option B. -/
def qB : Question :=
  { qid := 2, text := "q2", option_a := "1", option_b := "2", option_c := "3",
    option_d := "4", correct_option := "B", marks := 1 }

/-- Concrete open-ended one-question test. -/
def test1 : Test :=
  { start_time := some 0, end_time := none, duration_minutes := 30, questions := [qA] }

/-- Concrete open-ended two-question test. -/
def test2 : Test :=
  { start_time := some 0, end_time := none, duration_minutes := 30,
    questions := [qA, qB] }

/-- Concrete detector output with no person label and no resolvable
landmarks: the frame classifies as no-face. -/
def yNoFace : YoloOut :=
  { detected_objects := [], confidences := [], gaze := GazeOutcome.noLandmarks }

/-- Concrete stored record for question 1: option B selected, incorrect,
not marked. -/
def ansB : StudentAnswer :=
  { question_id := 1, selected_option := some "B", is_correct := false,
    time_spent := 0, marked_for_review := false }

/-- Concrete correct record for question 1. -/
def ansOkA : StudentAnswer :=
  { question_id := 1, selected_option := some "A", is_correct := true,
    time_spent := 0, marked_for_review := false }

/-- Concrete correct record for question 2. -/
def ansOkB : StudentAnswer :=
  { question_id := 2, selected_option := some "B", is_correct := true,
    time_spent := 0, marked_for_review := false }

/-- Concrete attempt carrying stale stored counters. -/
def staleAttempt : TestAttempt :=
  { attempted_at := 0, end_time := some 1800, score := 99, total_questions := 5,
    correct_answers := 7, wrong_answers := 9,
    auto_submitted_due_to_violation := false }

end EduSmart

namespace EduSmart

/-- Claim C4: computeDeadline is idempotent and clamping — when the
deadline of the attempt is unset it is set to
min(test.endTime, startedAt + durationMinutes) if test.endTime is set and
to startedAt + durationMinutes otherwise; an already-set deadline is left
unchanged, so a second application changes nothing. -/
theorem computeDeadline_idempotent_and_clamping (a : TestAttempt) (t : Test) :
    (a.end_time = none → t.end_time = none →
      (computeDeadline a t).end_time = some (a.attempted_at + t.duration_minutes * 60)) ∧
    (∀ te : Int, a.end_time = none → t.end_time = some te →
      (computeDeadline a t).end_time =
        some (min te (a.attempted_at + t.duration_minutes * 60))) ∧
    (∀ d : Int, a.end_time = some d → computeDeadline a t = a) ∧
    computeDeadline (computeDeadline a t) t = computeDeadline a t := by
  refine ⟨?_, ?_, ?_, ?_⟩
  · intro ha ht
    simp [computeDeadline, ha, ht]
  · intro te ha ht
    simp [computeDeadline, ha, ht]
  · intro d ha
    simp [computeDeadline, ha]
  · cases ha : a.end_time with
    | some d => simp [computeDeadline, ha]
    | none =>
      cases ht : t.end_time with
      | some te => simp [computeDeadline, ha, ht]
      | none => simp [computeDeadline, ha, ht]

/-- Witness for C4 at concrete inputs, including the clamping example of
the spec: startedAt = 0, endTime = 1200 s (T0+20m), duration 30 min, so
the deadline is 1200 s, the earlier bound. -/
theorem computeDeadline_idempotent_and_clamping_witness :
    (computeDeadline (newAttempt 0)
        { start_time := some 0, end_time := some 1200,
          duration_minutes := 30, questions := [] }).end_time = some 1200 := by
  have h := computeDeadline_idempotent_and_clamping (newAttempt 0)
    { start_time := some 0, end_time := some 1200,
      duration_minutes := 30, questions := [] }
  have h2 := h.2.1 1200 rfl rfl
  simpa using h2

/-- Claim C6: the anomaly classification yields at most one label by the
fixed precedence no-face > multiple-faces > mobile-device > gaze-off-screen
> none, first match winning. -/
theorem classifySuspicious_precedence (f m mo g : Bool) :
    (f = false → classifySuspicious f m mo g = some "No face detected") ∧
    (f = true → m = true → classifySuspicious f m mo g = some "Multiple people detected") ∧
    (f = true → m = false → mo = true →
      classifySuspicious f m mo g = some "Mobile phone detected") ∧
    (f = true → m = false → mo = false → g = true →
      classifySuspicious f m mo g = some "Eye gaze away") ∧
    (f = true → m = false → mo = false → g = false →
      classifySuspicious f m mo g = none) := by
  refine ⟨?_, ?_, ?_, ?_, ?_⟩ <;> intros <;> subst_vars <;> simp [classifySuspicious]

/-- Witness for C6: a frame with both no-face and mobile-device-detected
classifies as no-face, never mobile-device; the other precedence branches
are exercised at concrete inputs too. -/
theorem classifySuspicious_precedence_witness :
    classifySuspicious false false true false = some "No face detected" ∧
    classifySuspicious true true true true = some "Multiple people detected" ∧
    classifySuspicious true false true true = some "Mobile phone detected" ∧
    classifySuspicious true false false true = some "Eye gaze away" ∧
    classifySuspicious true false false false = none :=
  ⟨(classifySuspicious_precedence false false true false).1 rfl,
   (classifySuspicious_precedence true true true true).2.1 rfl rfl,
   (classifySuspicious_precedence true false true true).2.2.1 rfl rfl rfl,
   (classifySuspicious_precedence true false false true).2.2.2.1 rfl rfl rfl rfl,
   (classifySuspicious_precedence true false false false).2.2.2.2 rfl rfl rfl rfl⟩

/-- State of one decoded analysis cycle when the warning is accepted: the
suspicious label is present and strictly more than 2 seconds passed since
the last accepted warning, and the incremented counter stays under the
threshold, so the counter increments and the debounce clock moves. -/
theorem analyze_frame_accepted (st : ProctorState) (y : YoloOut) (t : Int) (ts : ℚ)
    (hsus : (suspiciousOf y).isSome = true) (h : ts - st.last_warn > 2)
    (hcap : st.warnings + 1 < 5) :
    (analyze_frame st (some y) t ts).1.warnings = st.warnings + 1 ∧
    (analyze_frame st (some y) t ts).1.last_warn = ts := by
  have hle : ¬ (5 ≤ st.warnings + 1) := Nat.not_le.mpr hcap
  constructor <;> simp [analyze_frame, hsus, h, hle]

/-- State of one decoded analysis cycle when the debounce window rejects
the warning and the counter is under the threshold: nothing changes. -/
theorem analyze_frame_rejected (st : ProctorState) (y : YoloOut) (t : Int) (ts : ℚ)
    (h : ¬ (ts - st.last_warn > 2)) (hcap : st.warnings < 5) :
    (analyze_frame st (some y) t ts).1.warnings = st.warnings ∧
    (analyze_frame st (some y) t ts).1.last_warn = st.last_warn := by
  have hle : ¬ (5 ≤ st.warnings) := Nat.not_le.mpr hcap
  constructor <;> simp [analyze_frame, h, hle]

/-- Claim C8: a frame-analysis cycle whose frame fails to decode aborts
with an error before any mutation — no ProctoringEvent is appended and
the warning counters are unchanged — while every cycle with a decoded
frame appends exactly one ProctoringEvent, whether or not the warning
count was incremented. -/
theorem analyze_frame_event_per_cycle (st : ProctorState) (now_dt : Int) (now_ts : ℚ) :
    analyze_frame st none now_dt now_ts = (st, Except.error "Frame decode failed") ∧
    (∀ y : YoloOut,
      (analyze_frame st (some y) now_dt now_ts).1.logs.length = st.logs.length + 1) ∧
    (∀ y : YoloOut,
      (analyze_frame st (some y) now_dt now_ts).1.logs.take st.logs.length = st.logs) := by
  refine ⟨rfl, ?_, ?_⟩ <;> intro y <;> simp [analyze_frame, List.take_left]

/-- Counterexample to claim C3: the debounce guard is strict.  Two
suspicious frames exactly 2 seconds apart increment the warning count
once, not twice — at least 2 seconds have elapsed, yet the second frame
is rejected; with a 3-second gap in the same state it is accepted. -/
theorem debounce_two_second_gap_rejected :
    ((102 : ℚ) - 100 ≥ 2) ∧
    suspiciousOf yNoFace = some "No face detected" ∧
    (analyze_frame { logs := [], warnings := 1, last_warn := 100 }
        (some yNoFace) 0 102).1.warnings = 1 ∧
    (analyze_frame { logs := [], warnings := 1, last_warn := 100 }
        (some yNoFace) 0 103).1.warnings = 2 :=
  ⟨by norm_num, by decide,
   (analyze_frame_rejected { logs := [], warnings := 1, last_warn := 100 } yNoFace 0 102
      (by norm_num) (by norm_num)).1,
   by
     have h := (analyze_frame_accepted { logs := [], warnings := 1, last_warn := 100 }
        yNoFace 0 103 (by decide) (by norm_num) (by norm_num)).1
     simpa using h⟩

/-- Claim C3 as amended: a new warning is accepted exactly when strictly
more than 2 seconds elapsed since the last accepted warning; in
particular two suspicious frames 1 second apart increment the warning
count once, and the same two frames 3 seconds apart increment it twice. -/
theorem debounce_strictly_more_than_two_seconds (st : ProctorState) (y : YoloOut)
    (t : Int) (ts : ℚ)
    (hsus : (suspiciousOf y).isSome = true) (hcap : st.warnings + 1 < 5) :
    ((analyze_frame st (some y) t ts).1.warnings =
        if ts - st.last_warn > 2 then st.warnings + 1 else st.warnings) ∧
    (ts - st.last_warn > 2 →
      (analyze_frame (analyze_frame st (some y) t ts).1
          (some y) t (ts + 1)).1.warnings = st.warnings + 1) ∧
    (ts - st.last_warn > 2 → st.warnings + 2 < 5 →
      (analyze_frame (analyze_frame st (some y) t ts).1
          (some y) t (ts + 3)).1.warnings = st.warnings + 2) := by
  refine ⟨?_, ?_, ?_⟩
  · by_cases h : ts - st.last_warn > 2
    · rw [if_pos h]
      exact (analyze_frame_accepted st y t ts hsus h hcap).1
    · rw [if_neg h]
      exact (analyze_frame_rejected st y t ts h (by omega)).1
  · intro h
    have h1 := analyze_frame_accepted st y t ts hsus h hcap
    have h2 : ¬ ((ts + 1) - (analyze_frame st (some y) t ts).1.last_warn > 2) := by
      rw [h1.2]; norm_num
    have h3 := analyze_frame_rejected (analyze_frame st (some y) t ts).1 y t (ts + 1)
        h2 (by rw [h1.1]; omega)
    rw [h3.1, h1.1]
  · intro h hcap2
    have h1 := analyze_frame_accepted st y t ts hsus h hcap
    have h2 : (ts + 3) - (analyze_frame st (some y) t ts).1.last_warn > 2 := by
      rw [h1.2]; norm_num
    have h3 := analyze_frame_accepted (analyze_frame st (some y) t ts).1 y t (ts + 3)
        hsus h2 (by rw [h1.1]; omega)
    rw [h3.1, h1.1]

/-- Witness for the amended claim C3 at concrete inputs: from one warning
accepted long ago, a suspicious frame at t=100 is accepted, a second one
at t=101 is rejected, and one at t=103 instead would be accepted. -/
theorem debounce_strictly_more_than_two_seconds_witness :
    (suspiciousOf yNoFace).isSome = true ∧ (1 : Nat) + 1 < 5 ∧
    ((analyze_frame { logs := [], warnings := 1, last_warn := 0 }
        (some yNoFace) 0 100).1.warnings =
      if (100 : ℚ) - 0 > 2 then 1 + 1 else 1) ∧
    ((100 : ℚ) - 0 > 2 →
      (analyze_frame (analyze_frame { logs := [], warnings := 1, last_warn := 0 }
          (some yNoFace) 0 100).1 (some yNoFace) 0 (100 + 1)).1.warnings = 1 + 1) ∧
    ((100 : ℚ) - 0 > 2 → (1 : Nat) + 2 < 5 →
      (analyze_frame (analyze_frame { logs := [], warnings := 1, last_warn := 0 }
          (some yNoFace) 0 100).1 (some yNoFace) 0 (100 + 3)).1.warnings = 1 + 2) := by
  have h := debounce_strictly_more_than_two_seconds
      { logs := [], warnings := 1, last_warn := 0 } yNoFace 0 100 (by decide) (by norm_num)
  exact ⟨by decide, by norm_num, h.1, h.2.1, h.2.2⟩

/-- Claim C1: on the frame whose accepted warning brings the counter to
the threshold of 5, analyze_frame reports auto_submit = true with a
counter reset to zero, both session counters reset, and the forced-submit
transition (modelled from the spec, outside src/) moves the attempt to
Submitted(Violation) with auto_submitted_due_to_violation set. -/
theorem warning_threshold_forces_submit (st : ProctorState) (y : YoloOut) (t : Int)
    (ts : ℚ) (attempt : TestAttempt) (answers : List StudentAnswer) (test : Test)
    (hsus : (suspiciousOf y).isSome = true) (hdeb : ts - st.last_warn > 2)
    (hw : 4 ≤ st.warnings) :
    (analyze_frame st (some y) t ts).2 =
      Except.ok { suspicious := suspiciousOf y, warnings := 0, auto_submit := true } ∧
    (analyze_frame st (some y) t ts).1.warnings = 0 ∧
    (analyze_frame st (some y) t ts).1.last_warn = 0 ∧
    (forcedSubmitViolation attempt answers test).auto_submitted_due_to_violation = true := by
  have hge : 5 ≤ st.warnings + 1 := by omega
  refine ⟨?_, ?_, ?_, rfl⟩ <;> simp [analyze_frame, hsus, hdeb, hge]

/-- Witness for C1: a student at 4 accumulated warnings receives a
suspicious frame past the debounce window; the cycle reports forced
submission with the counter reset, and the modelled transition sets the
violation flag. -/
theorem warning_threshold_forces_submit_witness :
    (suspiciousOf yNoFace).isSome = true ∧ (10 : ℚ) - 0 > 2 ∧ (4 : Nat) ≤ 4 ∧
    (analyze_frame { logs := [], warnings := 4, last_warn := 0 }
        (some yNoFace) 0 10).2 =
      Except.ok { suspicious := some "No face detected", warnings := 0,
                  auto_submit := true } ∧
    (analyze_frame { logs := [], warnings := 4, last_warn := 0 }
        (some yNoFace) 0 10).1.warnings = 0 ∧
    (forcedSubmitViolation (newAttempt 0) [] test1).auto_submitted_due_to_violation
      = true := by
  have hs : suspiciousOf yNoFace = some "No face detected" := by decide
  have h := warning_threshold_forces_submit
      { logs := [], warnings := 4, last_warn := 0 } yNoFace 0 10 (newAttempt 0) [] test1
      (by decide) (by norm_num) (by norm_num)
  rw [hs] at h
  exact ⟨by decide, by norm_num, by norm_num, h.1, h.2.1, h.2.2.2⟩

/-- Claim C9: on an existing AnswerRecord, recordAnswer with a falsy
selection (absent or empty) leaves the stored selection and correctness
untouched and overwrites only the review flag; a truthy selection is
stored with is_correct recomputed by exact match against the stored
correct option, and the review flag is overwritten in both cases. -/
theorem recordAnswer_preserves_selection (answers : List StudentAnswer) (q : Question)
    (sel : Option String) (mark : Bool) (r : StudentAnswer)
    (hfind : answers.find? (fun a => a.question_id == q.qid) = some r) :
    (optTruthy sel = false →
      recordAnswer answers q sel mark =
        answers.map (fun a => if a.question_id == q.qid then
          { a with marked_for_review := mark } else a)) ∧
    (optTruthy sel = true →
      recordAnswer answers q sel mark =
        answers.map (fun a => if a.question_id == q.qid then
          { a with selected_option := sel,
                   is_correct := (sel == some q.correct_option),
                   marked_for_review := mark } else a)) := by
  constructor <;> intro h <;> simp [recordAnswer, hfind, h]

/-- Witness for C9 at concrete inputs: a resubmission without a selection
but with a flipped review flag preserves the stored choice B and its
correctness, while a resubmission selecting A overwrites and recomputes. -/
theorem recordAnswer_preserves_selection_witness :
    [ansB].find? (fun a => a.question_id == qA.qid) = some ansB ∧
    optTruthy none = false ∧
    recordAnswer [ansB] qA none true = [{ ansB with marked_for_review := true }] ∧
    recordAnswer [ansB] qA (some "A") false =
      [{ ansB with selected_option := some "A", is_correct := true,
                   marked_for_review := false }] := by
  have h1 := recordAnswer_preserves_selection [ansB] qA none true ansB (by decide)
  have h2 := recordAnswer_preserves_selection [ansB] qA (some "A") false ansB (by decide)
  refine ⟨by decide, rfl, ?_, ?_⟩
  · rw [h1.1 rfl]; decide
  · rw [h2.2 rfl]; decide

/-- Counterexample to claim C5: finalize does not derive total_questions
from the AnswerRecords.  With one stored record and a two-question test
the scan sees 1 record, yet total_questions becomes 2, the
question count. -/
theorem finalize_total_not_from_records :
    [ansB].length = 1 ∧
    (finalize staleAttempt [ansB] test2).total_questions = 2 ∧
    (finalize staleAttempt [ansB] test2).total_questions ≠ [ansB].length := by
  refine ⟨rfl, by decide, by decide⟩

/-- Claim C5 as amended: finalize recomputes correct_answers and
wrong_answers by scanning all AnswerRecords of the attempt, ignoring any
previously stored counter values, sets total_questions to the
question count, and sets score = correct count; in particular 3 records
with 2 correct yield correct 2, wrong 1, score 2 even from stale stored
counters. -/
theorem finalize_scan_scoring (attempt attempt2 : TestAttempt)
    (answers : List StudentAnswer) (test : Test) :
    (finalize attempt answers test).correct_answers =
      (answers.filter (fun a => a.is_correct)).length ∧
    (finalize attempt answers test).wrong_answers =
      (answers.filter (fun a => !a.is_correct)).length ∧
    (finalize attempt answers test).total_questions = test.questions.length ∧
    (finalize attempt answers test).score =
      ((answers.filter (fun a => a.is_correct)).length : Int) ∧
    ((finalize attempt answers test).correct_answers =
        (finalize attempt2 answers test).correct_answers ∧
      (finalize attempt answers test).wrong_answers =
        (finalize attempt2 answers test).wrong_answers ∧
      (finalize attempt answers test).score = (finalize attempt2 answers test).score) ∧
    ((finalize staleAttempt [ansOkA, ansOkB, ansB] test2).correct_answers = 2 ∧
      (finalize staleAttempt [ansOkA, ansOkB, ansB] test2).wrong_answers = 1 ∧
      (finalize staleAttempt [ansOkA, ansOkB, ansB] test2).score = 2) :=
  ⟨rfl, rfl, rfl, rfl, ⟨rfl, rfl, rfl⟩, by decide⟩

/-- Claim C10: finalize counts every AnswerRecord whose is_correct is
false toward wrong_answers, including records carrying no selection at
all: a record created by the mark action or by a save without a selection
has is_correct false and no selection, and any record with is_correct
false present in the scan makes wrong_answers positive — an opened but
never answered question is counted wrong, not as a separate unattempted
category. -/
theorem finalize_counts_unanswered_as_wrong (attempt : TestAttempt)
    (answers : List StudentAnswer) (test : Test) (q : Question) (mark : Bool) :
    (finalize attempt answers test).wrong_answers =
      (answers.filter (fun a => !a.is_correct)).length ∧
    ((applyAjaxAction (defaultAnswer q.qid) q "mark" none).is_correct = false ∧
      (applyAjaxAction (defaultAnswer q.qid) q "mark" none).selected_option = none) ∧
    (∀ r ∈ answers, r.is_correct = false →
      0 < (finalize attempt answers test).wrong_answers) ∧
    (answers.find? (fun a => a.question_id == q.qid) = none →
      recordAnswer answers q none mark =
        answers ++ [{ question_id := q.qid, selected_option := none,
                      is_correct := false, time_spent := 0,
                      marked_for_review := mark }]) := by
  refine ⟨rfl, by simp [applyAjaxAction, defaultAnswer], ?_, ?_⟩
  · intro r hr hrc
    have hmem : r ∈ answers.filter (fun a => !a.is_correct) :=
      List.mem_filter.mpr ⟨hr, by simp [hrc]⟩
    simpa [finalize] using List.length_pos.mpr (List.ne_nil_of_mem hmem)
  · intro hfind
    simp [recordAnswer, hfind, optTruthy]

/-- Witness for C10 at concrete inputs: the stored record for question 1
is incorrect, so the finalized attempt has a positive wrong count; a mark
on a fresh record keeps is_correct false with no selection, and a save
without a selection creates such a record. -/
theorem finalize_counts_unanswered_as_wrong_witness :
    (finalize staleAttempt [ansB] test2).wrong_answers =
      ([ansB].filter (fun a => !a.is_correct)).length ∧
    (applyAjaxAction (defaultAnswer qA.qid) qA "mark" none).is_correct = false ∧
    ansB ∈ [ansB] ∧ ansB.is_correct = false ∧
    0 < (finalize staleAttempt [ansB] test2).wrong_answers ∧
    recordAnswer [] qA none true =
      [{ question_id := qA.qid, selected_option := none, is_correct := false,
         time_spent := 0, marked_for_review := true }] := by
  have h := finalize_counts_unanswered_as_wrong staleAttempt [ansB] test2 qA true
  have h0 := finalize_counts_unanswered_as_wrong staleAttempt [] test2 qA true
  exact ⟨h.1, h.2.1.1, by decide, rfl, h.2.2.1 ansB (by decide) rfl,
    h0.2.2.2 rfl⟩

/-- Counterexample to claim C2: submission does not freeze the answers.
From an attempt holding record (question 1, option B, incorrect), the
submit action finalizes the attempt; a subsequent save on the same,
now-submitted attempt still overwrites that AnswerRecord with option A. -/
theorem submitted_attempt_still_mutable :
    ajax_save_answer test1 (some staleAttempt) [ansB] 0 "submit" none =
      AjaxOutcome.submitResponse (finalize staleAttempt [ansB] test1) [ansB] ∧
    ajax_save_answer test1 (some (finalize staleAttempt [ansB] test1)) [ansB] 0 ""
        (some "A") =
      AjaxOutcome.stateResponse (finalize staleAttempt [ansB] test1)
        [{ ansB with selected_option := some "A", is_correct := true }] 0 ∧
    ([{ ansB with selected_option := some "A", is_correct := true }] :
        List StudentAnswer) ≠ [ansB] := by
  refine ⟨by decide, by decide, by decide⟩

/-- Claim C2 as amended: the incremental save never consults the
submission status of the attempt — its effect on the AnswerRecords is
identical for any two attempt rows, submitted or not, and for every
in-range index it writes the acted-on record regardless of any earlier
submission. -/
theorem ajax_save_ignores_submission (test : Test) (att att2 : TestAttempt)
    (answers : List StudentAnswer) (question_index : Int) (action : String)
    (sel : Option String) :
    ajaxAnswers (ajax_save_answer test (some att) answers question_index action sel) =
      ajaxAnswers (ajax_save_answer test (some att2) answers question_index action sel) ∧
    (¬ (question_index < 0 ∨ question_index ≥ (test.questions.length : Int)) →
      ajaxAnswers (ajax_save_answer test (some att) answers question_index action sel) =
        some (upsertAnswer answers
          (test.questions.getD question_index.toNat default).qid
          (applyAjaxAction
            ((answers.find? (fun a =>
                a.question_id == (test.questions.getD question_index.toNat default).qid)).getD
              (defaultAnswer (test.questions.getD question_index.toNat default).qid))
            (test.questions.getD question_index.toNat default) action sel))) := by
  constructor
  · by_cases h : question_index < 0 ∨ question_index ≥ (test.questions.length : Int)
    · simp [ajax_save_answer, h]
    · by_cases hs : action == "submit" <;>
        simp [ajax_save_answer, h, hs, ajaxAnswers]
  · intro h
    by_cases hs : action == "submit" <;>
      simp [ajax_save_answer, h, hs, ajaxAnswers]

/-- Witness for the amended claim C2: at index 0 of the one-question test
the save of option A writes the same record whether the attempt row is
fresh or already finalized. -/
theorem ajax_save_ignores_submission_witness :
    ¬ ((0 : Int) < 0 ∨ (0 : Int) ≥ (test1.questions.length : Int)) ∧
    ajaxAnswers (ajax_save_answer test1 (some staleAttempt) [ansB] 0 "" (some "A")) =
      ajaxAnswers (ajax_save_answer test1
        (some (finalize staleAttempt [ansB] test1)) [ansB] 0 "" (some "A")) ∧
    ajaxAnswers (ajax_save_answer test1 (some staleAttempt) [ansB] 0 "" (some "A")) =
      some (upsertAnswer [ansB] (test1.questions.getD (0 : Int).toNat default).qid
        (applyAjaxAction
          (([ansB].find? (fun a =>
              a.question_id == (test1.questions.getD (0 : Int).toNat default).qid)).getD
            (defaultAnswer (test1.questions.getD (0 : Int).toNat default).qid))
          (test1.questions.getD (0 : Int).toNat default) "" (some "A"))) := by
  have h := ajax_save_ignores_submission test1 staleAttempt
    (finalize staleAttempt [ansB] test1) [ansB] 0 "" (some "A")
  exact ⟨by decide, h.1, h.2 (by decide)⟩

/-- Counterexample to claim C7: an out-of-range index on the question
view does not fail with an error — start_test redirects to question 0,
and the redirected request serves the view of question 1. -/
theorem out_of_range_redirects_counterexample :
    ¬ ((5 : Int) < (0 : Int)) ∧ (test1.questions.length : Int) ≤ 5 ∧
    start_test true test1 10 none [] 5 =
      StartTestOutcome.redirectIndexZero (computeDeadline (newAttempt 10) test1) ∧
    start_test true test1 10 (some (computeDeadline (newAttempt 10) test1)) [] 0 =
      StartTestOutcome.questionView (computeDeadline (newAttempt 10) test1) qA none 1800 := by
  refine ⟨by norm_num, by decide, by decide, by decide⟩

/-- Claim C7 as amended: for an index outside the range of questions, the
page-based question view redirects to question index 0 rather than
serving the requested index, while the incremental save endpoint rejects
the index with the invalid-index error. -/
theorem out_of_range_index_handling (test : Test) (now : Int)
    (attempt0 : Option TestAttempt) (answers : List StudentAnswer)
    (question_index : Int) (att : TestAttempt) (action : String) (sel : Option String)
    (hs : windowNotStarted test now = false) (he : windowOver test now = false)
    (hrem : 0 < ((computeDeadline (attempt0.getD (newAttempt now)) test).end_time.getD now) - now)
    (hq : test.questions.length ≠ 0)
    (hidx : question_index < 0 ∨ question_index ≥ (test.questions.length : Int)) :
    start_test true test now attempt0 answers question_index =
      StartTestOutcome.redirectIndexZero
        (computeDeadline (attempt0.getD (newAttempt now)) test) ∧
    ajax_save_answer test (some att) answers question_index action sel =
      AjaxOutcome.invalidIndex := by
  constructor
  · simp [start_test, hs, he, Int.not_le.mpr hrem, hq, hidx]
  · simp [ajax_save_answer, hidx]

/-- Witness for the amended claim C7 at concrete inputs: index 5 of the
one-question test is redirected by the view and rejected by the save
endpoint. -/
theorem out_of_range_index_handling_witness :
    windowNotStarted test1 10 = false ∧ windowOver test1 10 = false ∧
    0 < ((computeDeadline ((none : Option TestAttempt).getD (newAttempt 10))
        test1).end_time.getD 10) - 10 ∧
    test1.questions.length ≠ 0 ∧
    ((5 : Int) < 0 ∨ (5 : Int) ≥ (test1.questions.length : Int)) ∧
    start_test true test1 10 none [] 5 =
      StartTestOutcome.redirectIndexZero (computeDeadline (newAttempt 10) test1) ∧
    ajax_save_answer test1 (some staleAttempt) [] 5 "" none =
      AjaxOutcome.invalidIndex := by
  have h := out_of_range_index_handling test1 10 none [] 5 staleAttempt "" none
    (by decide) (by decide) (by decide) (by decide) (by decide)
  exact ⟨by decide, by decide, by decide, by decide, by decide, h.1, h.2⟩

end EduSmart
